import Mathlib

/-!
Shallow embedding of `src/app.py` (NetBox → Catalyst Center webhook receiver).

Python values flowing through the extractor are modelled by `Val`, a tagged
tree of the shapes the code distinguishes: `None`, strings, dicts, and a
catch-all for other values carrying only its truthiness.  Python's
`AttributeError` (calling `.get` on a non-dict) is modelled by `Except Unit`.
Module-level configuration read from the environment is passed explicitly as a
`Config` record; the two outbound HTTP calls of a request are modelled by a
`World` record holding each call's result (`Except.error` = transport failure).
-/

set_option maxRecDepth 100000

inductive Val where
  | vnull  : Val
  | vstr   : String → Val
  | vdict  : List (String × Val) → Val
  | vother : Bool → Val

/-- Python truthiness of a `Val` (`vother` carries its truthiness directly). -/
def Val.truthy : Val → Bool
  | .vnull => false
  | .vstr s => !(s = "")
  | .vdict m => !m.isEmpty
  | .vother b => b

/-- Python `v is None`. -/
def Val.isNull : Val → Bool
  | .vnull => true
  | _ => false

/-- Python `isinstance(v, dict)`. -/
def Val.isDict : Val → Bool
  | .vdict _ => true
  | _ => false

/-- `d.get(k, dflt)` on a value known to be a dict (first binding wins). -/
def dgetD (m : List (String × Val)) (k : String) (dflt : Val) : Val :=
  (List.lookup k m).getD dflt

/-- `d.get(k)` on a value known to be a dict: default is `None`. -/
def dget (m : List (String × Val)) (k : String) : Val :=
  dgetD m k .vnull

/-- Python `a or b`. -/
def pyOr (a b : Val) : Val :=
  if a.truthy then a else b

/-- `v.get(k, dflt)` on an arbitrary value: raises `AttributeError` when `v`
is not a dict. -/
def attrGet (v : Val) (k : String) (dflt : Val) : Except Unit Val :=
  match v with
  | .vdict m => .ok (dgetD m k dflt)
  | _ => .error ()

/-- `payload.get("data") or {}` (app.py line 46). -/
def dataOf (payload : List (String × Val)) : Val :=
  pyOr (dget payload "data") (.vdict [])

/-- Step 1 of `extract_uuid_and_desc` (app.py lines 45-50): read
`description` and `custom_fields.catalyst_interface_uuid` from `payload["data"]`
when it is a non-empty dict.  Returns the state `(iface_uuid, desc)`. -/
def step1 (payload : List (String × Val)) : Except Unit (Val × Val) :=
  match dataOf payload with
  | .vdict m =>
    if (Val.vdict m).truthy then
      let cf := pyOr (dget m "custom_fields") (.vdict [])
      let desc := dgetD m "description" .vnull
      match attrGet cf "catalyst_interface_uuid" .vnull with
      | .ok u => .ok (u, desc)
      | .error e => .error e
    else .ok (.vnull, .vnull)
  | _ => .ok (.vnull, .vnull)

/-- The `post` value consulted by step 2 (app.py lines 53-55): nested under
`data` when that yields something truthy, otherwise top-level. -/
def postOf (payload : List (String × Val)) : Val :=
  let d := dataOf payload
  let p := match d with
    | .vdict m => dget m "post"
    | _ => .vnull
  if p.truthy then p else dget payload "post"

/-- Shared body of steps 2 and 3 (app.py lines 56-61 and 65-70): fill the
still-`None` fields of the state from a source dict `m`. -/
def fillFrom (m : List (String × Val)) (st : Val × Val) : Except Unit (Val × Val) :=
  let cf := pyOr (dget m "custom_fields") (.vdict [])
  let desc := if st.2.isNull then dget m "description" else st.2
  if st.1.isNull then
    match attrGet cf "catalyst_interface_uuid" .vnull with
    | .ok u => .ok (u, desc)
    | .error e => .error e
  else .ok (st.1, desc)

/-- `if isinstance(src, dict) and src: fill...` — the guard shared by steps 2
and 3. -/
def fillStep (src : Val) (st : Val × Val) : Except Unit (Val × Val) :=
  match src with
  | .vdict m => if (Val.vdict m).truthy then fillFrom m st else .ok st
  | _ => .ok st

/-- `extract_uuid_and_desc` (app.py lines 37-72): returns
`(iface_uuid, desc)`, with `Val.vnull` playing Python's `None`;
`Except.error` models an uncaught `AttributeError`. -/
def extract_uuid_and_desc (payload : List (String × Val)) : Except Unit (Val × Val) :=
  match step1 payload with
  | .error e => .error e
  | .ok st =>
    match fillStep (postOf payload) st with
    | .error e => .error e
    | .ok st2 => fillStep (dget payload "object") st2

/-- The `custom_fields`-based sub-expression `(src.get("custom_fields") or {})`
is safe to call `.get` on, i.e. is a dict.  It is a dict unless the entry is a
truthy non-dict. -/
def cfOk (v : Val) : Bool :=
  match v with
  | .vdict m => (pyOr (dget m "custom_fields") (.vdict [])).isDict
  | _ => true

/-- The identifier a source dict contributes:
`(src.get("custom_fields") or {}).get("catalyst_interface_uuid")`, read as
`None` when the custom-fields value is not a dict. -/
def cfuuid (m : List (String × Val)) : Val :=
  match pyOr (dget m "custom_fields") (.vdict []) with
  | .vdict cm => dget cm "catalyst_interface_uuid"
  | _ => .vnull

/-- A source value yields neither a description nor an identifier. -/
def yieldsNone (v : Val) : Bool :=
  match v with
  | .vdict m => m.isEmpty || ((dget m "description").isNull && (cfuuid m).isNull)
  | _ => true

/-!
SHA-512 and HMAC-SHA512 (FIPS 180-4 / RFC 2104), modelling Python's
`hmac.new(NB_SECRET.encode(), raw_body, hashlib.sha512).hexdigest()` used by
`verify_hmac` (app.py lines 16-21).  Words are `Nat`s reduced mod `2^64`.
-/

/-- Truncate to a 64-bit word. -/
def w64 (x : Nat) : Nat := x % 2 ^ 64

/-- Right rotation of a 64-bit word. -/
def rotr (n x : Nat) : Nat := w64 (x >>> n ||| x <<< (64 - n))

/-- Bitwise complement of a 64-bit word. -/
def notW (x : Nat) : Nat := x ^^^ (2 ^ 64 - 1)

def shaCh (x y z : Nat) : Nat := (x &&& y) ^^^ (notW x &&& z)

def shaMaj (x y z : Nat) : Nat := (x &&& y) ^^^ (x &&& z) ^^^ (y &&& z)

def bigSigma0 (x : Nat) : Nat := rotr 28 x ^^^ rotr 34 x ^^^ rotr 39 x

def bigSigma1 (x : Nat) : Nat := rotr 14 x ^^^ rotr 18 x ^^^ rotr 41 x

def smallSigma0 (x : Nat) : Nat := rotr 1 x ^^^ rotr 8 x ^^^ (x >>> 7)

def smallSigma1 (x : Nat) : Nat := rotr 19 x ^^^ rotr 61 x ^^^ (x >>> 6)

/-- The 80 SHA-512 round constants. -/
def K512 : List Nat := [
  4794697086780616226, 8158064640168781261, 13096744586834688815, 16840607885511220156,
  4131703408338449720, 6480981068601479193, 10538285296894168987, 12329834152419229976,
  15566598209576043074, 1334009975649890238, 2608012711638119052, 6128411473006802146,
  8268148722764581231, 9286055187155687089, 11230858885718282805, 13951009754708518548,
  16472876342353939154, 17275323862435702243, 1135362057144423861, 2597628984639134821,
  3308224258029322869, 5365058923640841347, 6679025012923562964, 8573033837759648693,
  10970295158949994411, 12119686244451234320, 12683024718118986047, 13788192230050041572,
  14330467153632333762, 15395433587784984357, 489312712824947311, 1452737877330783856,
  2861767655752347644, 3322285676063803686, 5560940570517711597, 5996557281743188959,
  7280758554555802590, 8532644243296465576, 9350256976987008742, 10552545826968843579,
  11727347734174303076, 12113106623233404929, 14000437183269869457, 14369950271660146224,
  15101387698204529176, 15463397548674623760, 17586052441742319658, 1182934255886127544,
  1847814050463011016, 2177327727835720531, 2830643537854262169, 3796741975233480872,
  4115178125766777443, 5681478168544905931, 6601373596472566643, 7507060721942968483,
  8399075790359081724, 8693463985226723168, 9568029438360202098, 10144078919501101548,
  10430055236837252648, 11840083180663258601, 13761210420658862357, 14299343276471374635,
  14566680578165727644, 15097957966210449927, 16922976911328602910, 17689382322260857208,
  500013540394364858, 748580250866718886, 1242879168328830382, 1977374033974150939,
  2944078676154940804, 3659926193048069267, 4368137639120453308, 4836135668995329356,
  5532061633213252278, 6448918945643986474, 6902733635092675308, 7801388544844847127]

/-- The eight 64-bit working variables of SHA-512. -/
structure Hash8 where
  a : Nat
  b : Nat
  c : Nat
  d : Nat
  e : Nat
  f : Nat
  g : Nat
  h : Nat

/-- SHA-512 initial hash value. -/
def sha512Init : Hash8 :=
  ⟨7640891576956012808, 13503953896175478587,
   4354685564936845355, 11912009170470909681,
   5840696475078001361, 11170449401992604703,
   2270897969802886507, 6620516959819538809⟩

/-- One compression round; `kw` pairs the round constant with the schedule
word. -/
def sha512Round (s : Hash8) (kw : Nat × Nat) : Hash8 :=
  let t1 := w64 (s.h + bigSigma1 s.e + shaCh s.e s.f s.g + kw.1 + kw.2)
  let t2 := w64 (bigSigma0 s.a + shaMaj s.a s.b s.c)
  ⟨w64 (t1 + t2), s.a, s.b, s.c, w64 (s.d + t1), s.e, s.f, s.g⟩

/-- Append the next message-schedule word to `ws` (which has ≥ 16 entries). -/
def schedStep (ws : List Nat) : List Nat :=
  let t := ws.length
  let g := fun i => ws.getD (t - i) 0
  ws ++ [w64 (smallSigma1 (g 2) + g 7 + smallSigma0 (g 15) + g 16)]

/-- Extend a 16-word block to the 80-word message schedule. -/
def schedule (block : List Nat) : List Nat :=
  (List.range 64).foldl (fun ws _ => schedStep ws) block

/-- Pointwise mod-`2^64` sum of two hash states. -/
def addHash (x y : Hash8) : Hash8 :=
  ⟨w64 (x.a + y.a), w64 (x.b + y.b), w64 (x.c + y.c), w64 (x.d + y.d),
   w64 (x.e + y.e), w64 (x.f + y.f), w64 (x.g + y.g), w64 (x.h + y.h)⟩

/-- Process one 16-word block. -/
def processBlock (s : Hash8) (block : List Nat) : Hash8 :=
  addHash s ((K512.zip (schedule block)).foldl sha512Round s)

/-- Big-endian byte rendering of `x` on `n` bytes. -/
def beBytes (n x : Nat) : List Nat :=
  (List.range n).map (fun i => x >>> (8 * (n - 1 - i)) % 256)

/-- Group bytes into big-endian 64-bit words. -/
def words64 : List Nat → List Nat
  | b0 :: b1 :: b2 :: b3 :: b4 :: b5 :: b6 :: b7 :: rest =>
    (((((((b0 * 256 + b1) * 256 + b2) * 256 + b3) * 256 + b4) * 256 + b5) * 256
        + b6) * 256 + b7) :: words64 rest
  | _ => []

/-- Group a word list into 16-word blocks. -/
def blocks16 : List Nat → List (List Nat)
  | w0 :: w1 :: w2 :: w3 :: w4 :: w5 :: w6 :: w7 ::
    w8 :: w9 :: w10 :: w11 :: w12 :: w13 :: w14 :: w15 :: rest =>
    [w0, w1, w2, w3, w4, w5, w6, w7, w8, w9, w10, w11, w12, w13, w14, w15]
      :: blocks16 rest
  | _ => []

/-- SHA-512 padding: `0x80`, zeros to 112 mod 128, then the 128-bit
big-endian bit length. -/
def padMsg (msg : List Nat) : List Nat :=
  let L := msg.length
  let z := (240 - (L + 1) % 128) % 128
  msg ++ 0x80 :: List.replicate z 0 ++ beBytes 16 (8 * L)

/-- SHA-512 of a byte sequence. -/
def sha512 (msg : List Nat) : Hash8 :=
  (blocks16 (words64 (padMsg msg))).foldl processBlock sha512Init

/-- The 64 digest bytes of a hash state. -/
def digestBytes (s : Hash8) : List Nat :=
  beBytes 8 s.a ++ beBytes 8 s.b ++ beBytes 8 s.c ++ beBytes 8 s.d ++
  beBytes 8 s.e ++ beBytes 8 s.f ++ beBytes 8 s.g ++ beBytes 8 s.h

/-- Lowercase hexadecimal digit. -/
def hexChar (n : Nat) : Char :=
  if n < 10 then Char.ofNat (48 + n) else Char.ofNat (87 + n)

/-- The two lowercase hex characters of one byte. -/
def hexPair (b : Nat) : List Char :=
  [hexChar (b / 16 % 16), hexChar (b % 16)]

/-- Lowercase hex string of a byte sequence (Python's `.hexdigest()`). -/
def hexOfBytes (bs : List Nat) : String :=
  String.mk (bs.flatMap hexPair)

/-- HMAC-SHA512 (RFC 2104, block size 128). -/
def hmacSha512 (key msg : List Nat) : Hash8 :=
  let k0 := if 128 < key.length then digestBytes (sha512 key) else key
  let kpad := k0 ++ List.replicate (128 - k0.length) 0
  let ipad := kpad.map (fun b => b ^^^ 0x36)
  let opad := kpad.map (fun b => b ^^^ 0x5c)
  sha512 (opad ++ digestBytes (sha512 (ipad ++ msg)))

/-- UTF-8 bytes of one scalar value. -/
def utf8Char (c : Nat) : List Nat :=
  if c < 0x80 then [c]
  else if c < 0x800 then [0xC0 + c / 64, 0x80 + c % 64]
  else if c < 0x10000 then [0xE0 + c / 4096, 0x80 + c / 64 % 64, 0x80 + c % 64]
  else [0xF0 + c / 262144, 0x80 + c / 4096 % 64, 0x80 + c / 64 % 64, 0x80 + c % 64]

/-- Python's `s.encode()` (UTF-8 bytes of a string). -/
def strBytes (s : String) : List Nat :=
  s.data.flatMap (fun c => utf8Char c.toNat)

/-- The digest `verify_hmac` computes (app.py line 20):
`hmac.new(secret.encode(), raw_body, hashlib.sha512).hexdigest()`. -/
def hmacHex (secret : String) (raw_body : List Nat) : String :=
  hexOfBytes (digestBytes (hmacSha512 (strBytes secret) raw_body))

/-- `verify_hmac` (app.py lines 16-21), with the module-level `NB_SECRET`
passed explicitly; `hmac.compare_digest` is string equality (its constant-time
evaluation is not observable here). -/
def verify_hmac (secret : String) (raw_body : List Nat)
    (signature : Option String) : Bool :=
  if secret = "" then true
  else hmacHex secret raw_body == signature.getD ""

/-!
URL building, controller client and the `handle_nbx` orchestrator.
-/

/-- The module-level configuration of app.py (lines 8-14), passed explicitly.
`ccHost` is the already-`rstrip`ped `CC_HOST`. -/
structure Config where
  ccHost : String
  ccUser : String
  ccPass : String
  nbSecret : String
  verifyTls : Bool
  deploymentMode : String
  interfacePath : String

/-- `build_update_url` (app.py lines 30-35). -/
def build_update_url (cfg : Config) (if_uuid : String) : String :=
  if cfg.interfacePath = "wireless" then
    cfg.ccHost ++ "/dna/intent/api/v1/wirelessSettings/interfaces/" ++ if_uuid
  else
    cfg.ccHost ++ "/dna/intent/api/v1/interface/" ++ if_uuid

/-- Python's `"?" in url`. -/
def hasQmark (url : String) : Bool := url.data.contains '?'

/-- The deployment-mode suffix logic of `handle_nbx` (app.py lines 97-99). -/
def addDeploymentMode (cfg : Config) (url : String) : String :=
  if cfg.deploymentMode = "" then url
  else url ++ (if hasQmark url then "&" else "?") ++ "deploymentMode=" ++ cfg.deploymentMode

/-- Python's `str()` as used by the f-string in `build_update_url`; rendered
faithfully for the string and `None` values the claims exercise, abbreviated
for containers. -/
def pyStr : Val → String
  | .vnull => "None"
  | .vstr s => s
  | .vdict _ => "<dict>"
  | .vother _ => "<other>"

/-- Result of the token-endpoint call: its HTTP status and the `Token` field
of its JSON body. -/
structure AuthResp where
  status : Nat
  token : String

/-- Result of the update PUT call. -/
structure UpdateResp where
  status : Nat
  text : String

/-- The outcomes of the two outbound HTTP calls a request can make;
`Except.error` is a transport-level failure (the `requests` call itself
raising). -/
structure World where
  authResp : Except Unit AuthResp
  updateResp : Except Unit UpdateResp

/-- `catalyst_token` (app.py lines 23-28): `r.raise_for_status()` raises
exactly on 4xx/5xx statuses, otherwise the JSON body's `Token` is returned. -/
def catalyst_token (resp : Except Unit AuthResp) : Except Unit String :=
  match resp with
  | .error e => .error e
  | .ok r => if 400 ≤ r.status ∧ r.status < 600 then .error () else .ok r.token

/-- An outbound controller call made while handling one request. -/
inductive CallRec where
  | auth
  | update (url : String) (desc : Val) (token : String)

/-- What the handler hands back to the HTTP layer: a Flask `(body, status)`
reply, or an uncaught exception escaping to the host server. -/
inductive Outcome where
  | reply (status : Nat) (body : String)
  | errored

/-- `handle_nbx` (app.py lines 74-116).  `raw` is `request.get_data()`,
`sig` the `X-Hook-Signature` header, `payload` the decoded JSON body
(`request.get_json(force=True)` is modelled as this input).  Returns the
outcome together with the outbound controller calls made, in order. -/
def handle_nbx (cfg : Config) (w : World) (raw : List Nat) (sig : Option String)
    (payload : List (String × Val)) : Outcome × List CallRec :=
  if verify_hmac cfg.nbSecret raw sig then
    match extract_uuid_and_desc payload with
    | .error _ => (.errored, [])
    | .ok (iface_uuid, desc) =>
      if !iface_uuid.truthy || desc.isNull then (.reply 204 "no-op", [])
      else
        let url := addDeploymentMode cfg (build_update_url cfg (pyStr iface_uuid))
        match catalyst_token w.authResp with
        | .error _ => (.errored, [.auth])
        | .ok token =>
          match w.updateResp with
          | .error _ => (.errored, [.auth, .update url desc token])
          | .ok r => (.reply 200 (toString r.status), [.auth, .update url desc token])
  else (.reply 401 "Bad signature", [])

/-!
Helper lemmas.
-/

/-- FIPS 180-4 test vector: SHA-512 of `"abc"`. -/
theorem sha512_vec_abc :
    hexOfBytes (digestBytes (sha512 [97, 98, 99])) =
      "ddaf35a193617abacc417349ae20413112e6fa4e89a97ea20a9eeee64b55d39a2192992a274fc1a836ba3c23a3feebbd454d4423643ce80e2a9ac94fa54ca49f" := rfl

theorem lookup_isEmpty_false {k : String} {l : List (String × Val)} {v : Val}
    (h : List.lookup k l = some v) : l.isEmpty = false := by
  cases l with
  | nil => simp [List.lookup] at h
  | cons a as => rfl

theorem isNull_iff (v : Val) : v.isNull = true ↔ v = .vnull := by
  cases v <;> simp [Val.isNull]

theorem isNull_false_iff (v : Val) : v.isNull = false ↔ v ≠ .vnull := by
  cases v <;> simp [Val.isNull]

theorem fillStep_preserve (src : Val) (st : Val × Val)
    (h1 : st.1 ≠ .vnull) (h2 : st.2 ≠ .vnull) : fillStep src st = .ok st := by
  have h1' : st.1.isNull = false := (isNull_false_iff st.1).mpr h1
  have h2' : st.2.isNull = false := (isNull_false_iff st.2).mpr h2
  cases src <;> simp [fillStep, fillFrom, h1', h2']

theorem step1_ok (p : List (String × Val)) (h : cfOk (dataOf p)) :
    ∃ st, step1 p = .ok st := by
  unfold step1
  cases hd : dataOf p with
  | vdict m =>
    rw [hd] at h
    simp only [cfOk] at h
    cases hcf : pyOr (dget m "custom_fields") (.vdict []) with
    | vdict cm =>
      simp only [hcf, attrGet]
      split
      all_goals exact ⟨_, rfl⟩
    | vnull => rw [hcf] at h; simp [Val.isDict] at h
    | vstr s => rw [hcf] at h; simp [Val.isDict] at h
    | vother b => rw [hcf] at h; simp [Val.isDict] at h
  | vnull => simp
  | vstr s => simp
  | vother b => simp

theorem fillStep_ok (src : Val) (st : Val × Val) (h : cfOk src) :
    ∃ st', fillStep src st = .ok st' := by
  unfold fillStep fillFrom
  cases src with
  | vdict m =>
    simp only [cfOk] at h
    cases hcf : pyOr (dget m "custom_fields") (.vdict []) with
    | vdict cm =>
      simp only [hcf, attrGet]
      split
      all_goals try exact ⟨_, rfl⟩
      all_goals split <;> exact ⟨_, rfl⟩
    | vnull => rw [hcf] at h; simp [Val.isDict] at h
    | vstr s => rw [hcf] at h; simp [Val.isDict] at h
    | vother b => rw [hcf] at h; simp [Val.isDict] at h
  | vnull => simp
  | vstr s => simp
  | vother b => simp

theorem step1_none (p : List (String × Val)) (h : cfOk (dataOf p))
    (hy : yieldsNone (dataOf p)) : step1 p = .ok (.vnull, .vnull) := by
  unfold step1
  cases hd : dataOf p with
  | vdict m =>
    rw [hd] at h hy
    simp only [cfOk] at h
    simp only [yieldsNone] at hy
    cases hm : m.isEmpty with
    | true => simp [Val.truthy, hm]
    | false =>
      rw [hm] at hy
      simp only [Bool.false_or, Bool.and_eq_true] at hy
      cases hcf : pyOr (dget m "custom_fields") (.vdict []) with
      | vdict cm =>
        have hdesc : dgetD m "description" .vnull = .vnull := by
          have h' := (isNull_iff (dget m "description")).mp hy.1
          simpa [dget] using h'
        have huu : dgetD cm "catalyst_interface_uuid" .vnull = .vnull := by
          have h' := (isNull_iff (cfuuid m)).mp hy.2
          simp only [cfuuid, hcf] at h'
          simpa [dget] using h'
        simp [Val.truthy, hm, hcf, attrGet, hdesc, huu]
      | vnull => rw [hcf] at h; simp [Val.isDict] at h
      | vstr s => rw [hcf] at h; simp [Val.isDict] at h
      | vother b => rw [hcf] at h; simp [Val.isDict] at h
  | vnull => simp
  | vstr s => simp
  | vother b => simp

theorem fillStep_none (src : Val) (h : cfOk src) (hy : yieldsNone src) :
    fillStep src (.vnull, .vnull) = .ok (.vnull, .vnull) := by
  unfold fillStep fillFrom
  cases src with
  | vdict m =>
    simp only [cfOk] at h
    simp only [yieldsNone] at hy
    cases hm : m.isEmpty with
    | true => simp [Val.truthy, hm]
    | false =>
      rw [hm] at hy
      simp only [Bool.false_or, Bool.and_eq_true] at hy
      cases hcf : pyOr (dget m "custom_fields") (.vdict []) with
      | vdict cm =>
        have hdesc : dget m "description" = .vnull := (isNull_iff _).mp hy.1
        have huu : dgetD cm "catalyst_interface_uuid" .vnull = .vnull := by
          have h' := (isNull_iff (cfuuid m)).mp hy.2
          simp only [cfuuid, hcf] at h'
          simpa [dget] using h'
        simp [Val.truthy, hm, hcf, attrGet, hdesc, huu, Val.isNull]
      | vnull => rw [hcf] at h; simp [Val.isDict] at h
      | vstr s => rw [hcf] at h; simp [Val.isDict] at h
      | vother b => rw [hcf] at h; simp [Val.isDict] at h
  | vnull => simp
  | vstr s => simp
  | vother b => simp

/-- C1: when `data` is a non-empty mapping carrying a non-null `description`
and a `custom_fields` mapping with a non-null `catalyst_interface_uuid`,
`extract_uuid_and_desc` returns exactly those values, whatever `post` or
`object` entries the payload also contains: a field filled by the
earlier-priority `data` source is never overridden. -/
theorem C1_data_wins (payload m cm : List (String × Val)) (dv uv : Val)
    (hd : List.lookup "data" payload = some (Val.vdict m))
    (hdesc : List.lookup "description" m = some dv) (hdv : dv ≠ Val.vnull)
    (hcf : List.lookup "custom_fields" m = some (Val.vdict cm))
    (huuid : List.lookup "catalyst_interface_uuid" cm = some uv)
    (huv : uv ≠ Val.vnull) :
    extract_uuid_and_desc payload = .ok (uv, dv) := by
  have hm : m.isEmpty = false := lookup_isEmpty_false hdesc
  have hcm : cm.isEmpty = false := lookup_isEmpty_false huuid
  have h1 : step1 payload = .ok (uv, dv) := by
    simp [step1, dataOf, dget, dgetD, pyOr, hd, Val.truthy, hm, hcm, hcf, huuid,
      hdesc, attrGet]
  have h2 := fillStep_preserve (postOf payload) (uv, dv) huv hdv
  have h3 := fillStep_preserve (dget payload "object") (uv, dv) huv hdv
  simp [extract_uuid_and_desc, h1, h2, h3]

theorem C1_data_wins_witness :
    extract_uuid_and_desc
      [("data", .vdict [("description", .vstr "A"),
         ("custom_fields", .vdict [("catalyst_interface_uuid", .vstr "U")]),
         ("post", .vdict [("description", .vstr "B"),
           ("custom_fields", .vdict [("catalyst_interface_uuid", .vstr "V")])])]),
       ("post", .vdict [("description", .vstr "C")]),
       ("object", .vdict [("description", .vstr "D"),
         ("custom_fields", .vdict [("catalyst_interface_uuid", .vstr "W")])])] =
      .ok (.vstr "U", .vstr "A") :=
  C1_data_wins _ _ _ _ _ rfl rfl (by intro h; cases h) rfl rfl (by intro h; cases h)

/-- C2 counterexample: the claim says a `custom_fields` entry of the wrong
type (not a mapping) never raises, but a truthy non-mapping `custom_fields`
under a non-empty `data` mapping raises `AttributeError` at
`cf.get("catalyst_interface_uuid", ...)`. -/
theorem C2_cex_wrong_type_raises :
    extract_uuid_and_desc [("data", Val.vdict [("custom_fields", Val.vstr "x")])] =
      .error () := rfl

/-- C2 (amended): `extract_uuid_and_desc` never raises when any of `data`,
`post`, or `object` is absent, of the wrong type, or an empty mapping, and
when every consulted source's `custom_fields` entry is absent, falsy, or a
mapping (a truthy non-mapping `custom_fields` does raise); under those
conditions, when no source yields a description or identifier it returns
`(None, None)`. -/
theorem C2_tolerant_extraction (payload : List (String × Val))
    (h1 : cfOk (dataOf payload) = true) (h2 : cfOk (postOf payload) = true)
    (h3 : cfOk (dget payload "object") = true) :
    (∃ st, extract_uuid_and_desc payload = .ok st)
    ∧ (yieldsNone (dataOf payload) = true → yieldsNone (postOf payload) = true →
       yieldsNone (dget payload "object") = true →
       extract_uuid_and_desc payload = .ok (.vnull, .vnull)) := by
  constructor
  · obtain ⟨st, hst⟩ := step1_ok payload h1
    obtain ⟨st2, hst2⟩ := fillStep_ok (postOf payload) st h2
    obtain ⟨st3, hst3⟩ := fillStep_ok (dget payload "object") st2 h3
    exact ⟨st3, by simp [extract_uuid_and_desc, hst, hst2, hst3]⟩
  · intro hy1 hy2 hy3
    have hst := step1_none payload h1 hy1
    have hst2 := fillStep_none (postOf payload) h2 hy2
    have hst3 := fillStep_none (dget payload "object") h3 hy3
    simp [extract_uuid_and_desc, hst, hst2, hst3]

theorem C2_tolerant_extraction_witness :
    extract_uuid_and_desc [("data", .vstr "x"), ("post", .vdict []), ("object", .vnull)] =
      .ok (.vnull, .vnull) :=
  (C2_tolerant_extraction
    [("data", .vstr "x"), ("post", .vdict []), ("object", .vnull)]
    rfl rfl rfl).2 rfl rfl rfl

/-- C7: when `data` is absent or an empty mapping and the `post` entry
resolved by the code's fallback order (nested under `data`, else top-level —
here necessarily top-level) is a non-empty mapping carrying a non-null
`description` and a `custom_fields` mapping with a non-null
`catalyst_interface_uuid`, extraction returns those two values. -/
theorem C7_post_fallback (payload pm cm : List (String × Val)) (dv uv : Val)
    (hdata : List.lookup "data" payload = none ∨
      List.lookup "data" payload = some (Val.vdict []))
    (hpost : List.lookup "post" payload = some (Val.vdict pm))
    (hdesc : List.lookup "description" pm = some dv) (hdv : dv ≠ Val.vnull)
    (hcf : List.lookup "custom_fields" pm = some (Val.vdict cm))
    (huuid : List.lookup "catalyst_interface_uuid" cm = some uv)
    (huv : uv ≠ Val.vnull) :
    extract_uuid_and_desc payload = .ok (uv, dv) := by
  have hd0 : dataOf payload = Val.vdict [] := by
    rcases hdata with h | h <;> simp [dataOf, dget, dgetD, h, pyOr, Val.truthy]
  have h1 : step1 payload = .ok (.vnull, .vnull) := by
    simp [step1, hd0, Val.truthy]
  have hpostOf : postOf payload = Val.vdict pm := by
    simp [postOf, hd0, dget, dgetD, Val.truthy, hpost]
  have hpm : pm.isEmpty = false := lookup_isEmpty_false hdesc
  have hcm : cm.isEmpty = false := lookup_isEmpty_false huuid
  have h2 : fillStep (Val.vdict pm) (.vnull, .vnull) = .ok (uv, dv) := by
    simp [fillStep, fillFrom, Val.truthy, hpm, pyOr, dget, dgetD, hcf, hcm,
      attrGet, huuid, hdesc, Val.isNull]
  have h3 := fillStep_preserve (dget payload "object") (uv, dv) huv hdv
  simp [extract_uuid_and_desc, h1, hpostOf, h2, h3]

theorem C7_post_fallback_witness :
    extract_uuid_and_desc
      [("data", .vdict []),
       ("post", .vdict [("description", .vstr "D"),
         ("custom_fields", .vdict [("catalyst_interface_uuid", .vstr "U")])])] =
      .ok (.vstr "U", .vstr "D") :=
  C7_post_fallback _ _ _ _ _ (Or.inr rfl) rfl rfl (by intro h; cases h)
    rfl rfl (by intro h; cases h)

theorem length_beBytes (n x : Nat) : (beBytes n x).length = n := by
  simp [beBytes]

theorem length_digestBytes (s : Hash8) : (digestBytes s).length = 64 := by
  simp [digestBytes, length_beBytes]

theorem length_hexData (bs : List Nat) :
    (bs.flatMap hexPair).length = 2 * bs.length := by
  induction bs with
  | nil => simp
  | cons b bs ih => simp [hexPair, ih]; omega

theorem hmacHex_length (secret : String) (raw : List Nat) :
    (hmacHex secret raw).length = 128 := by
  show ((digestBytes (hmacSha512 (strBytes secret) raw)).flatMap hexPair).length = 128
  rw [length_hexData, length_digestBytes]

theorem hmacHex_ne_empty (secret : String) (raw : List Nat) :
    hmacHex secret raw ≠ "" := by
  intro h
  have hl := hmacHex_length secret raw
  rw [h] at hl
  simp [String.length] at hl

theorem verify_eq_iff (secret : String) (h : secret ≠ "") (raw : List Nat)
    (sig : Option String) :
    verify_hmac secret raw sig = true ↔ sig.getD "" = hmacHex secret raw := by
  simp only [verify_hmac, if_neg h, beq_iff_eq]
  exact eq_comm

theorem verify_none_false (secret : String) (h : secret ≠ "") (raw : List Nat) :
    verify_hmac secret raw none = false := by
  simp only [verify_hmac, if_neg h, Option.getD_none, beq_eq_false_iff_ne, ne_eq]
  exact hmacHex_ne_empty secret raw

/-- C4: with a non-empty secret, `verify_hmac` returns true exactly when the
provided signature equals the lowercase hexadecimal HMAC-SHA512 of the raw
body under the secret; any signature differing from that digest (in
particular any single-bit mutation of it) is rejected; a missing signature is
treated as empty and fails; with an empty secret every body and signature are
accepted. -/
theorem C4_verify_hmac_spec (secret : String) (raw : List Nat) (sig : Option String) :
    (secret ≠ "" → (verify_hmac secret raw sig = true ↔
        sig.getD "" = hmacHex secret raw))
    ∧ (secret ≠ "" → ∀ s' : String, s' ≠ hmacHex secret raw →
        verify_hmac secret raw (some s') = false)
    ∧ (secret ≠ "" → verify_hmac secret raw none = false)
    ∧ verify_hmac "" raw sig = true := by
  refine ⟨fun h => verify_eq_iff secret h raw sig,
    fun h s' hs => ?_,
    fun h => verify_none_false secret h raw,
    by simp [verify_hmac]⟩
  simp only [verify_hmac, if_neg h, Option.getD_some, beq_eq_false_iff_ne, ne_eq]
  exact fun hh => hs hh.symm

/-- Concrete HMAC-SHA512 vector: key `"s"`, message byte `"a"`, matching the
producer-side computation. -/
theorem hmacHex_vec_s97 :
    hmacHex "s" [97] =
      "71e876fd1029c42e36d341c81933087472b2f356c6a9221f1f09954fe8c1d62e760599cc4bebb7deaadbfa316f62718e334b6795ad5e1f84a0bac2cf15f08c78" := rfl

theorem C4_verify_hmac_spec_witness :
    verify_hmac "s" [97]
      (some "71e876fd1029c42e36d341c81933087472b2f356c6a9221f1f09954fe8c1d62e760599cc4bebb7deaadbfa316f62718e334b6795ad5e1f84a0bac2cf15f08c78") = true
    ∧ verify_hmac "s" [97]
      (some "01e876fd1029c42e36d341c81933087472b2f356c6a9221f1f09954fe8c1d62e760599cc4bebb7deaadbfa316f62718e334b6795ad5e1f84a0bac2cf15f08c78") = false
    ∧ verify_hmac "s" [97] none = false
    ∧ verify_hmac "" [97] (some "zz") = true :=
  ⟨((C4_verify_hmac_spec "s" [97] _).1 (by decide)).mpr hmacHex_vec_s97.symm,
   (C4_verify_hmac_spec "s" [97] none).2.1 (by decide) _
     (by rw [hmacHex_vec_s97]; decide),
   (C4_verify_hmac_spec "s" [97] none).2.2.1 (by decide),
   (C4_verify_hmac_spec "" [97] (some "zz")).2.2.2⟩

theorem strData_append (a b : String) : (a ++ b).data = a.data ++ b.data := rfl

theorem strAppend_assoc (a b c : String) : a ++ b ++ c = a ++ (b ++ c) := by
  apply String.ext
  simp [strData_append]

theorem contains_append (l1 l2 : List Char) (c : Char) :
    (l1 ++ l2).contains c = (l1.contains c || l2.contains c) := by
  induction l1 with
  | nil => simp
  | cons a as ih => simp [List.contains_cons, ih, Bool.or_assoc]

theorem hasQmark_append (a b : String) :
    hasQmark (a ++ b) = (hasQmark a || hasQmark b) := by
  simp only [hasQmark, strData_append, contains_append]

/-- C6: in `wireless` mode with deployment mode `Preview` and identifier
`abc` the built URL (including the handler's deployment-mode suffix logic)
ends with `/dna/intent/api/v1/wirelessSettings/interfaces/abc?deploymentMode=Preview`;
in any non-wireless mode with empty deployment mode it ends with
`/dna/intent/api/v1/interface/abc` and carries no query string; a non-empty
deployment mode is appended with `&` when the base URL already contains `?`
and with `?` otherwise. -/
theorem C6_url_building (cfg : Config) :
    (cfg.interfacePath = "wireless" → cfg.deploymentMode = "Preview" →
      hasQmark cfg.ccHost = false →
      addDeploymentMode cfg (build_update_url cfg "abc") =
        cfg.ccHost ++ "/dna/intent/api/v1/wirelessSettings/interfaces/abc?deploymentMode=Preview")
    ∧ (cfg.interfacePath ≠ "wireless" → cfg.deploymentMode = "" →
      addDeploymentMode cfg (build_update_url cfg "abc") =
        cfg.ccHost ++ "/dna/intent/api/v1/interface/abc"
      ∧ (hasQmark cfg.ccHost = false →
        hasQmark (addDeploymentMode cfg (build_update_url cfg "abc")) = false))
    ∧ (∀ url : String, cfg.deploymentMode ≠ "" →
      addDeploymentMode cfg url =
        url ++ (if hasQmark url then "&" else "?") ++ "deploymentMode=" ++
          cfg.deploymentMode) := by
  refine ⟨fun hw hp hq => ?_, fun hw hp => ?_, fun url hdm => ?_⟩
  · have hurl : build_update_url cfg "abc" =
        cfg.ccHost ++ "/dna/intent/api/v1/wirelessSettings/interfaces/" ++ "abc" := by
      unfold build_update_url
      rw [if_pos hw]
    have hq2 : hasQmark (build_update_url cfg "abc") = false := by
      rw [hurl, hasQmark_append, hasQmark_append, hq]
      decide
    unfold addDeploymentMode
    rw [if_neg (show ¬cfg.deploymentMode = "" by rw [hp]; decide), hq2]
    rw [if_neg (by decide), hurl, hp]
    simp only [strAppend_assoc]
    rfl
  · have hurl : build_update_url cfg "abc" =
        cfg.ccHost ++ "/dna/intent/api/v1/interface/" ++ "abc" := by
      unfold build_update_url
      rw [if_neg hw]
    have hfull : addDeploymentMode cfg (build_update_url cfg "abc") =
        cfg.ccHost ++ "/dna/intent/api/v1/interface/" ++ "abc" := by
      unfold addDeploymentMode
      rw [if_pos hp, hurl]
    constructor
    · rw [hfull, strAppend_assoc]
      rfl
    · intro hq
      rw [hfull, hasQmark_append, hasQmark_append, hq]
      decide
  · simp only [addDeploymentMode, if_neg hdm]

theorem C6_url_building_witness :
    addDeploymentMode ⟨"https://cc", "u", "p", "", true, "Preview", "wireless"⟩
        (build_update_url ⟨"https://cc", "u", "p", "", true, "Preview", "wireless"⟩ "abc") =
      "https://cc" ++ "/dna/intent/api/v1/wirelessSettings/interfaces/abc?deploymentMode=Preview"
    ∧ addDeploymentMode ⟨"https://cc", "u", "p", "", true, "", "generic"⟩
        (build_update_url ⟨"https://cc", "u", "p", "", true, "", "generic"⟩ "abc") =
      "https://cc" ++ "/dna/intent/api/v1/interface/abc"
    ∧ addDeploymentMode ⟨"https://cc", "u", "p", "", true, "Deploy", "generic"⟩ "x?y" =
      "x?y" ++ (if hasQmark "x?y" then "&" else "?") ++ "deploymentMode=" ++ "Deploy" :=
  ⟨(C6_url_building ⟨"https://cc", "u", "p", "", true, "Preview", "wireless"⟩).1
      rfl rfl rfl,
   ((C6_url_building ⟨"https://cc", "u", "p", "", true, "", "generic"⟩).2.1
      (by decide) rfl).1,
   (C6_url_building ⟨"https://cc", "u", "p", "", true, "Deploy", "generic"⟩).2.2
      "x?y" (by decide)⟩

/-- C8: when signature verification fails, the handler replies with the fixed
rejection status 401 and makes no outbound controller calls; extraction is
never acted upon. -/
theorem C8_rejected_no_calls (cfg : Config) (w : World) (raw : List Nat)
    (sig : Option String) (payload : List (String × Val))
    (hv : verify_hmac cfg.nbSecret raw sig = false) :
    handle_nbx cfg w raw sig payload = (.reply 401 "Bad signature", []) := by
  simp [handle_nbx, hv]

theorem C8_rejected_no_calls_witness :
    handle_nbx ⟨"https://cc", "u", "p", "k", true, "Deploy", "generic"⟩
      ⟨.ok ⟨200, "tok"⟩, .ok ⟨200, "ok"⟩⟩ [] none [] =
      (.reply 401 "Bad signature", []) :=
  C8_rejected_no_calls _ _ _ _ _ (verify_none_false "k" (by decide) [])

/-- C3 counterexample: with the update call answering 404, the handler's HTTP
status is 200, not 404 — the controller's status code is not forwarded as the
handler's own status (it is only serialized into the body). -/
theorem C3_cex_status_not_forwarded :
    (handle_nbx ⟨"https://cc", "u", "p", "", true, "Deploy", "generic"⟩
        ⟨.ok ⟨200, "tok"⟩, .ok ⟨404, "nf"⟩⟩ [] none
        [("data", .vdict [("description", .vstr "A"),
          ("custom_fields", .vdict [("catalyst_interface_uuid", .vstr "U")])])]).1 =
      .reply 200 "404" ∧ (200 : Nat) ≠ 404 :=
  ⟨rfl, by decide⟩

/-- C3 (amended): on every completed attempt the handler replies to the
webhook source with HTTP status 200 and the controller's own status code
serialized as the response body; in particular, when the controller's update
call returns status 200 the handler's final reported status is 200. -/
theorem C3_completed_returns_200 (cfg : Config) (w : World) (raw : List Nat)
    (sig : Option String) (payload : List (String × Val)) (u d : Val)
    (ast st : Nat) (tok txt : String)
    (hv : verify_hmac cfg.nbSecret raw sig = true)
    (he : extract_uuid_and_desc payload = .ok (u, d))
    (hu : u.truthy = true) (hd : d.isNull = false)
    (ha : w.authResp = .ok ⟨ast, tok⟩) (hast : ast < 400)
    (hup : w.updateResp = .ok ⟨st, txt⟩) :
    (handle_nbx cfg w raw sig payload).1 = .reply 200 (toString st) := by
  have hna : ¬(400 ≤ ast ∧ ast < 600) := by omega
  simp [handle_nbx, hv, he, hu, hd, catalyst_token, ha, hna, hup]

theorem C3_completed_returns_200_witness :
    (handle_nbx ⟨"https://cc", "u", "p", "", true, "Deploy", "generic"⟩
        ⟨.ok ⟨200, "tok"⟩, .ok ⟨200, "ok"⟩⟩ [] none
        [("data", .vdict [("description", .vstr "A"),
          ("custom_fields", .vdict [("catalyst_interface_uuid", .vstr "U")])])]).1 =
      .reply 200 "200" :=
  C3_completed_returns_200 ⟨"https://cc", "u", "p", "", true, "Deploy", "generic"⟩
    ⟨.ok ⟨200, "tok"⟩, .ok ⟨200, "ok"⟩⟩ [] none
    [("data", .vdict [("description", .vstr "A"),
      ("custom_fields", .vdict [("catalyst_interface_uuid", .vstr "U")])])]
    _ _ _ _ _ _ rfl rfl rfl rfl rfl (by decide) rfl

/-- C5: the handler issues the controller update only when both extracted
fields are non-absent — every update call record in the handler's call list
implies both are non-`None` — and whenever either extracted field is absent
it replies 204 `no-op` without any controller call. -/
theorem C5_no_partial_update (cfg : Config) (w : World) (raw : List Nat)
    (sig : Option String) (payload : List (String × Val)) (u d : Val)
    (hv : verify_hmac cfg.nbSecret raw sig = true)
    (he : extract_uuid_and_desc payload = .ok (u, d)) :
    ((u = .vnull ∨ d = .vnull) →
      handle_nbx cfg w raw sig payload = (.reply 204 "no-op", []))
    ∧ (∀ url dv tok, CallRec.update url dv tok ∈ (handle_nbx cfg w raw sig payload).2 →
        u ≠ .vnull ∧ d ≠ .vnull) := by
  constructor
  · rintro (h | h) <;> subst h <;>
      simp [handle_nbx, hv, he, Val.truthy, Val.isNull]
  · intro url dv tok hmem
    by_cases hc : (!u.truthy || d.isNull) = true
    · rw [show handle_nbx cfg w raw sig payload = (.reply 204 "no-op", []) by
        simp [handle_nbx, hv, he, hc]] at hmem
      simp at hmem
    · have hu : u.truthy = true := by
        cases hut : u.truthy with
        | true => rfl
        | false => exact absurd (by simp [hut]) hc
      have hd : d.isNull = false := by
        cases hdn : d.isNull with
        | false => rfl
        | true => exact absurd (by simp [hdn]) hc
      refine ⟨fun hnull => ?_, (isNull_false_iff d).mp hd⟩
      rw [hnull] at hu
      simp [Val.truthy] at hu

theorem C5_no_partial_update_witness :
    handle_nbx ⟨"https://cc", "u", "p", "", true, "Deploy", "generic"⟩
      ⟨.ok ⟨200, "tok"⟩, .ok ⟨200, "ok"⟩⟩ [] none [] =
      (.reply 204 "no-op", []) :=
  (C5_no_partial_update ⟨"https://cc", "u", "p", "", true, "Deploy", "generic"⟩
    ⟨.ok ⟨200, "tok"⟩, .ok ⟨200, "ok"⟩⟩ [] none [] _ _ rfl rfl).1 (Or.inl rfl)

/-- C9: `catalyst_token` raises on any transport failure and on any 4xx/5xx
token-endpoint response (`raise_for_status`) — failing the whole request with
no retry, with only the authenticate call made — while the update operation
never raises on a non-2xx controller response (its status code is surfaced in
the handler's reply body) and only a transport-level failure of the update
call is fatal. -/
theorem C9_auth_fatal_update_tolerant :
    (∀ r : AuthResp, 400 ≤ r.status → r.status < 600 →
      catalyst_token (.ok r) = .error ())
    ∧ (∀ e : Unit, catalyst_token (.error e) = .error e)
    ∧ (∀ r : AuthResp, r.status < 400 → catalyst_token (.ok r) = .ok r.token)
    ∧ (∀ (cfg : Config) (w : World) (raw : List Nat) (sig : Option String)
        (payload : List (String × Val)) (u d : Val) (ast : Nat) (tok : String),
        verify_hmac cfg.nbSecret raw sig = true →
        extract_uuid_and_desc payload = .ok (u, d) →
        u.truthy = true → d.isNull = false →
        w.authResp = .ok ⟨ast, tok⟩ → 400 ≤ ast → ast < 600 →
        handle_nbx cfg w raw sig payload = (.errored, [.auth]))
    ∧ (∀ (cfg : Config) (w : World) (raw : List Nat) (sig : Option String)
        (payload : List (String × Val)) (u d : Val) (ast st : Nat)
        (tok txt : String),
        verify_hmac cfg.nbSecret raw sig = true →
        extract_uuid_and_desc payload = .ok (u, d) →
        u.truthy = true → d.isNull = false →
        w.authResp = .ok ⟨ast, tok⟩ → ast < 400 →
        w.updateResp = .ok ⟨st, txt⟩ →
        (handle_nbx cfg w raw sig payload).1 = .reply 200 (toString st))
    ∧ (∀ (cfg : Config) (w : World) (raw : List Nat) (sig : Option String)
        (payload : List (String × Val)) (u d : Val) (ast : Nat) (tok : String)
        (e : Unit),
        verify_hmac cfg.nbSecret raw sig = true →
        extract_uuid_and_desc payload = .ok (u, d) →
        u.truthy = true → d.isNull = false →
        w.authResp = .ok ⟨ast, tok⟩ → ast < 400 →
        w.updateResp = .error e →
        (handle_nbx cfg w raw sig payload).1 = .errored) := by
  refine ⟨fun r h1 h2 => ?_, fun e => rfl, fun r h => ?_, ?_, ?_, ?_⟩
  · simp [catalyst_token, h1, h2]
  · have hna : ¬(400 ≤ r.status ∧ r.status < 600) := by omega
    simp [catalyst_token, hna]
  · intro cfg w raw sig payload u d ast tok hv he hu hd ha h1 h2
    simp [handle_nbx, hv, he, hu, hd, catalyst_token, ha, h1, h2]
  · intro cfg w raw sig payload u d ast st tok txt hv he hu hd ha hast hup
    have hna : ¬(400 ≤ ast ∧ ast < 600) := by omega
    simp [handle_nbx, hv, he, hu, hd, catalyst_token, ha, hna, hup]
  · intro cfg w raw sig payload u d ast tok e hv he hu hd ha hast hup
    have hna : ¬(400 ≤ ast ∧ ast < 600) := by omega
    simp [handle_nbx, hv, he, hu, hd, catalyst_token, ha, hna, hup]

theorem C9_auth_fatal_update_tolerant_witness :
    catalyst_token (.ok ⟨401, "t"⟩) = .error ()
    ∧ catalyst_token (.ok ⟨200, "t"⟩) = .ok "t"
    ∧ handle_nbx ⟨"https://cc", "u", "p", "", true, "Deploy", "generic"⟩
        ⟨.ok ⟨500, "tok"⟩, .ok ⟨200, "ok"⟩⟩ [] none
        [("data", .vdict [("description", .vstr "A"),
          ("custom_fields", .vdict [("catalyst_interface_uuid", .vstr "U")])])] =
        (.errored, [.auth])
    ∧ (handle_nbx ⟨"https://cc", "u", "p", "", true, "Deploy", "generic"⟩
        ⟨.ok ⟨200, "tok"⟩, .ok ⟨500, "err"⟩⟩ [] none
        [("data", .vdict [("description", .vstr "A"),
          ("custom_fields", .vdict [("catalyst_interface_uuid", .vstr "U")])])]).1 =
        .reply 200 "500" :=
  ⟨C9_auth_fatal_update_tolerant.1 ⟨401, "t"⟩ (by decide) (by decide),
   C9_auth_fatal_update_tolerant.2.2.1 ⟨200, "t"⟩ (by decide),
   C9_auth_fatal_update_tolerant.2.2.2.1
     ⟨"https://cc", "u", "p", "", true, "Deploy", "generic"⟩
     ⟨.ok ⟨500, "tok"⟩, .ok ⟨200, "ok"⟩⟩ [] none
     [("data", .vdict [("description", .vstr "A"),
       ("custom_fields", .vdict [("catalyst_interface_uuid", .vstr "U")])])]
     _ _ _ _ rfl rfl rfl rfl rfl (by decide) (by decide),
   C9_auth_fatal_update_tolerant.2.2.2.2.1
     ⟨"https://cc", "u", "p", "", true, "Deploy", "generic"⟩
     ⟨.ok ⟨200, "tok"⟩, .ok ⟨500, "err"⟩⟩ [] none
     [("data", .vdict [("description", .vstr "A"),
       ("custom_fields", .vdict [("catalyst_interface_uuid", .vstr "U")])])]
     _ _ _ _ _ _ rfl rfl rfl rfl rfl (by decide) rfl⟩

/-- C10: the handler treats the two extracted fields asymmetrically at the
no-op boundary: an empty-string identifier is falsy, so it replies 204
`no-op` with no controller calls, while an empty-string description passes
the `is None` check and the update is issued with the empty description. -/
theorem C10_empty_string_asymmetry (cfg : Config) (w : World) (raw : List Nat)
    (sig : Option String) (payload : List (String × Val))
    (hv : verify_hmac cfg.nbSecret raw sig = true) :
    (∀ d : Val, extract_uuid_and_desc payload = .ok (.vstr "", d) →
      handle_nbx cfg w raw sig payload = (.reply 204 "no-op", []))
    ∧ (∀ (u : Val) (ast st : Nat) (tok txt : String),
        extract_uuid_and_desc payload = .ok (u, .vstr "") → u.truthy = true →
        w.authResp = .ok ⟨ast, tok⟩ → ast < 400 → w.updateResp = .ok ⟨st, txt⟩ →
        handle_nbx cfg w raw sig payload =
          (.reply 200 (toString st),
           [.auth,
            .update (addDeploymentMode cfg (build_update_url cfg (pyStr u)))
              (.vstr "") tok])) := by
  constructor
  · intro d he
    have ht : Val.truthy (.vstr "") = false := rfl
    simp [handle_nbx, hv, he, ht]
  · intro u ast st tok txt he hu ha hast hup
    have hna : ¬(400 ≤ ast ∧ ast < 600) := by omega
    have hn : Val.isNull (.vstr "") = false := rfl
    simp [handle_nbx, hv, he, hu, hn, catalyst_token, ha, hna, hup]

theorem C10_empty_string_asymmetry_witness :
    handle_nbx ⟨"https://cc", "u", "p", "", true, "", "generic"⟩
      ⟨.ok ⟨200, "tok"⟩, .ok ⟨200, "ok"⟩⟩ [] none
      [("data", .vdict [("description", .vstr "A"),
        ("custom_fields", .vdict [("catalyst_interface_uuid", .vstr "")])])] =
      (.reply 204 "no-op", [])
    ∧ handle_nbx ⟨"https://cc", "u", "p", "", true, "", "generic"⟩
      ⟨.ok ⟨200, "tok"⟩, .ok ⟨200, "ok"⟩⟩ [] none
      [("data", .vdict [("description", .vstr ""),
        ("custom_fields", .vdict [("catalyst_interface_uuid", .vstr "U")])])] =
      (.reply 200 "200",
       [.auth, .update "https://cc/dna/intent/api/v1/interface/U" (.vstr "") "tok"]) :=
  ⟨(C10_empty_string_asymmetry ⟨"https://cc", "u", "p", "", true, "", "generic"⟩
      ⟨.ok ⟨200, "tok"⟩, .ok ⟨200, "ok"⟩⟩ [] none
      [("data", .vdict [("description", .vstr "A"),
        ("custom_fields", .vdict [("catalyst_interface_uuid", .vstr "")])])]
      rfl).1 _ rfl,
   (C10_empty_string_asymmetry ⟨"https://cc", "u", "p", "", true, "", "generic"⟩
      ⟨.ok ⟨200, "tok"⟩, .ok ⟨200, "ok"⟩⟩ [] none
      [("data", .vdict [("description", .vstr ""),
        ("custom_fields", .vdict [("catalyst_interface_uuid", .vstr "U")])])]
      rfl).2 _ _ _ _ _ rfl rfl rfl (by decide) rfl⟩
